import Mathlib

/-!
Shallow embedding of `src/tjutil/hf_cache.py` (HuggingFace cache-directory
resolution utilities) and verification of its specification.

The module reads environment variables and queries the filesystem
(`os.path.exists`, `os.path.isdir`, `open(...).read()`), so the embedding
passes an explicit `World` describing those external observations.  All
functions of the module are pure reads; logging is the only side effect and
is not modelled (no claim is about the log messages).
-/

/-- External state observed by the module: the environment-variable map,
which paths exist, which paths are directories, the contents of readable
text files (`none` models a read that raises), and the expansion of `~`
(`os.path.expanduser`). -/
structure World where
  env : String → Option String
  pathExists : String → Bool
  isDir : String → Bool
  readFile : String → Option String
  home : String

/-- Outcome of the two snapshot resolvers: a raised exception
(`open` failing), a `None` return, or a returned path. -/
inductive FindResult where
  | raised : FindResult
  | absent : FindResult
  | found : String → FindResult
  deriving DecidableEq, Repr

/-- Embedding of POSIX `os.path.join` for two components: an absolute
second component replaces the first; otherwise the parts are separated by
`/` unless the first is empty or already ends in `/`. -/
def joinPath (a b : String) : String :=
  if b.data.head? = some '/' then b
  else if a = "" then a ++ b
  else if a.data.getLast? = some '/' then a ++ b
  else a ++ "/" ++ b

/-- The validity test applied to every candidate directory:
`os.path.exists(p) and os.path.isdir(p)`. -/
def existsAndIsDir (w : World) (p : String) : Bool :=
  w.pathExists p && w.isDir p

/-- Candidate check shared by the resolvers: return the path when it
exists and is a directory, otherwise fall through (`none`). -/
def checkDir (w : World) (p : String) : Option String :=
  if existsAndIsDir w p then some p else none

/-- Embedding of `find_hf_home_dir` (hf_cache.py lines 4-25): `HF_HOME`
when set, existing and a directory; else the default
`~/.cache/huggingface` under the same test; else `None`. -/
def find_hf_home_dir (w : World) : Option String :=
  match (w.env "HF_HOME").bind (checkDir w) with
  | some result => some result
  | none => checkDir w (joinPath (joinPath w.home ".cache") "huggingface")

/-- Embedding of `find_hf_hub_dir` (hf_cache.py lines 28-55):
`HUGGINGFACE_HUB_CACHE` when valid; else `HF_HOME` joined with `hub` when
that joined path is valid; else the default `~/.cache/huggingface/hub`;
else `None`. -/
def find_hf_hub_dir (w : World) : Option String :=
  match (w.env "HUGGINGFACE_HUB_CACHE").bind (checkDir w) with
  | some result => some result
  | none =>
    match (w.env "HF_HOME").bind (fun h => checkDir w (joinPath h "hub")) with
    | some result => some result
    | none =>
      checkDir w (joinPath (joinPath (joinPath w.home ".cache") "huggingface") "hub")

/-- Embedding of `find_hf_datasets_dir` (hf_cache.py lines 58-85):
`HF_DATASETS_CACHE` when valid; else `HF_HOME` joined with `datasets`
when that joined path is valid; else the default
`~/.cache/huggingface/datasets`; else `None`. -/
def find_hf_datasets_dir (w : World) : Option String :=
  match (w.env "HF_DATASETS_CACHE").bind (checkDir w) with
  | some result => some result
  | none =>
    match (w.env "HF_HOME").bind (fun h => checkDir w (joinPath h "datasets")) with
    | some result => some result
    | none =>
      checkDir w
        (joinPath (joinPath (joinPath w.home ".cache") "huggingface") "datasets")

/-- Embedding of `find_xdg_cache_home` (hf_cache.py lines 88-109):
`XDG_CACHE_HOME` when valid; else the default `~/.cache`; else `None`. -/
def find_xdg_cache_home (w : World) : Option String :=
  match (w.env "XDG_CACHE_HOME").bind (checkDir w) with
  | some result => some result
  | none => checkDir w (joinPath w.home ".cache")

/-- Character-level replacement on a character list: every occurrence of
`c` becomes the list `r`. -/
def replaceCharList (c : Char) (r : List Char) : List Char → List Char
  | [] => []
  | ch :: rest => (if ch = c then r else [ch]) ++ replaceCharList c r rest

/-- Embedding of Python `s.replace(old, new)` for the module's two call
sites, whose `old` is a single character (`"/"` and `"\n"`): with a
one-character pattern, Python's left-to-right non-overlapping replacement
is exactly per-character replacement. -/
def replaceChar (s : String) (c : Char) (r : String) : String :=
  String.mk (replaceCharList c r.data s.data)

/-- The repository sub-directory name computed by `find_model_dir`
(hf_cache.py line 146): `"models--" + model.replace("/", "--")`. -/
def model_path (model : String) : String :=
  "models--" ++ replaceChar model '/' "--"

/-- The repository sub-directory name computed by `find_datasets_dir`
(hf_cache.py line 197): `"datasets--" + datasets.replace("/", "--")`. -/
def dataset_path (datasets : String) : String :=
  "datasets--" ++ replaceChar datasets '/' "--"

/-- The base-directory fallback chain of `find_model_dir` (hf_cache.py
lines 129-140): the hub cache, else `find_hf_home_dir()` joined with
`hub`, else `find_xdg_cache_home()` joined with `huggingface/hub`. -/
def modelBaseDir (w : World) : Option String :=
  match find_hf_hub_dir w with
  | some base_dir => some base_dir
  | none =>
    match find_hf_home_dir w with
    | some hf_home => some (joinPath hf_home "hub")
    | none =>
      match find_xdg_cache_home w with
      | some xdg_cache_home => some (joinPath (joinPath xdg_cache_home "huggingface") "hub")
      | none => none

/-- The base-directory fallback chain of `find_datasets_dir` (hf_cache.py
lines 180-191): the datasets cache, else `find_hf_home_dir()` joined with
`datasets`, else `find_xdg_cache_home()` joined with
`huggingface/datasets`. -/
def datasetsBaseDir (w : World) : Option String :=
  match find_hf_datasets_dir w with
  | some base_dir => some base_dir
  | none =>
    match find_hf_home_dir w with
    | some hf_home => some (joinPath hf_home "datasets")
    | none =>
      match find_xdg_cache_home w with
      | some xdg_cache_home =>
        some (joinPath (joinPath xdg_cache_home "huggingface") "datasets")
      | none => none

/-- Embedding of `find_model_dir` (hf_cache.py lines 120-168): resolve the
base directory; check `<base>/models--...` exists (the source repeats this
check twice, lines 150-158, with no further effect); read
`<repo>/refs/main` (a failing read raises); remove every newline from the
contents to get `oid`; check `<repo>/snapshots/<oid>` exists and return
it. -/
def find_model_dir (w : World) (model : String) : FindResult :=
  match modelBaseDir w with
  | none => FindResult.absent
  | some base_dir =>
    let model_dir := joinPath base_dir (model_path model)
    if w.pathExists model_dir = false then FindResult.absent
    else
      match w.readFile (joinPath (joinPath model_dir "refs") "main") with
      | none => FindResult.raised
      | some contents =>
        let oid := replaceChar contents '\n' ""
        let lfs_dir := joinPath (joinPath model_dir "snapshots") oid
        if w.pathExists lfs_dir = false then FindResult.absent
        else FindResult.found lfs_dir

/-- Embedding of `find_datasets_dir` (hf_cache.py lines 171-217),
mirroring `find_model_dir` with the datasets chain and prefix. -/
def find_datasets_dir (w : World) (datasets : String) : FindResult :=
  match datasetsBaseDir w with
  | none => FindResult.absent
  | some base_dir =>
    let dataset_dir := joinPath base_dir (dataset_path datasets)
    if w.pathExists dataset_dir = false then FindResult.absent
    else
      match w.readFile (joinPath (joinPath dataset_dir "refs") "main") with
      | none => FindResult.raised
      | some contents =>
        let oid := replaceChar contents '\n' ""
        let lfs_dir := joinPath (joinPath dataset_dir "snapshots") oid
        if w.pathExists lfs_dir = false then FindResult.absent
        else FindResult.found lfs_dir

/-- Modelled from the spec: "strip trailing newline/whitespace" — removal
of all trailing whitespace characters from a string.  Used only to state
what the spec predicts, for comparison with the code's behaviour. -/
def stripTrailingWs (s : String) : String :=
  String.mk ((s.data.reverse.dropWhile Char.isWhitespace).reverse)

/-- Updating the `readFile` field does not change any base-directory
resolution: the resolvers only consult `env`, `pathExists`, `isDir` and
`home`. -/
theorem modelBaseDir_set_readFile (w : World) (f : String → Option String) :
    modelBaseDir { w with readFile := f } = modelBaseDir w := rfl

/-- The datasets analogue of `modelBaseDir_set_readFile`. -/
theorem datasetsBaseDir_set_readFile (w : World) (f : String → Option String) :
    datasetsBaseDir { w with readFile := f } = datasetsBaseDir w := rfl

/-- C2: for each of the four base resolvers, if its primary environment
variable (`HF_HOME`, `HUGGINGFACE_HUB_CACHE`, `HF_DATASETS_CACHE`,
`XDG_CACHE_HOME` respectively) is set to a path that exists and is a
directory, the resolver returns exactly that value unchanged. -/
theorem primary_env_identity (w : World) (v : String) :
    (w.env "HF_HOME" = some v → existsAndIsDir w v = true →
      find_hf_home_dir w = some v) ∧
    (w.env "HUGGINGFACE_HUB_CACHE" = some v → existsAndIsDir w v = true →
      find_hf_hub_dir w = some v) ∧
    (w.env "HF_DATASETS_CACHE" = some v → existsAndIsDir w v = true →
      find_hf_datasets_dir w = some v) ∧
    (w.env "XDG_CACHE_HOME" = some v → existsAndIsDir w v = true →
      find_xdg_cache_home w = some v) := by
  refine ⟨fun h1 h2 => ?_, fun h1 h2 => ?_, fun h1 h2 => ?_, fun h1 h2 => ?_⟩ <;>
    simp [find_hf_home_dir, find_hf_hub_dir, find_hf_datasets_dir,
      find_xdg_cache_home, h1, checkDir, h2]

/-- World for the `primary_env_identity` witness: all four primary
variables point at the existing directory `/e`; nothing else exists. -/
def Wc2 : World :=
  { env := fun n =>
      if n = "HF_HOME" then some "/e"
      else if n = "HUGGINGFACE_HUB_CACHE" then some "/e"
      else if n = "HF_DATASETS_CACHE" then some "/e"
      else if n = "XDG_CACHE_HOME" then some "/e" else none,
    pathExists := fun p => p == "/e",
    isDir := fun p => p == "/e",
    readFile := fun _ => none,
    home := "/home/u" }

/-- Witness for C2 at the concrete world `Wc2`. -/
theorem primary_env_identity_witness :
    find_hf_home_dir Wc2 = some "/e" ∧ find_hf_hub_dir Wc2 = some "/e" ∧
    find_hf_datasets_dir Wc2 = some "/e" ∧ find_xdg_cache_home Wc2 = some "/e" := by
  obtain ⟨p1, p2, p3, p4⟩ := primary_env_identity Wc2 "/e"
  exact ⟨p1 (by decide) (by decide), p2 (by decide) (by decide),
    p3 (by decide) (by decide), p4 (by decide) (by decide)⟩

/-- C1: for `find_hf_hub_dir` and `find_hf_datasets_dir` the candidate
priority is strict in every environment: a primary-variable candidate that
exists and is a directory is returned (whatever else exists), and when the
primary chain yields nothing, an `HF_HOME`-derived candidate that exists
and is a directory is returned (whatever the default's state). -/
theorem hub_datasets_priority_strict (w : World) :
    (∀ v, w.env "HUGGINGFACE_HUB_CACHE" = some v → existsAndIsDir w v = true →
      find_hf_hub_dir w = some v) ∧
    (∀ hh, (w.env "HUGGINGFACE_HUB_CACHE").bind (checkDir w) = none →
      w.env "HF_HOME" = some hh → existsAndIsDir w (joinPath hh "hub") = true →
      find_hf_hub_dir w = some (joinPath hh "hub")) ∧
    (∀ v, w.env "HF_DATASETS_CACHE" = some v → existsAndIsDir w v = true →
      find_hf_datasets_dir w = some v) ∧
    (∀ hh, (w.env "HF_DATASETS_CACHE").bind (checkDir w) = none →
      w.env "HF_HOME" = some hh → existsAndIsDir w (joinPath hh "datasets") = true →
      find_hf_datasets_dir w = some (joinPath hh "datasets")) := by
  refine ⟨fun v h1 h2 => ?_, fun hh hp h1 h2 => ?_,
    fun v h1 h2 => ?_, fun hh hp h1 h2 => ?_⟩
  · simp [find_hf_hub_dir, h1, checkDir, h2]
  · unfold find_hf_hub_dir
    rw [hp]
    simp [h1, checkDir, h2]
  · simp [find_hf_datasets_dir, h1, checkDir, h2]
  · unfold find_hf_datasets_dir
    rw [hp]
    simp [h1, checkDir, h2]

/-- World for the first half of the C1 witness: every path exists and is a
directory, so the primary, the `HF_HOME`-derived and the default candidates
are all valid at once. -/
def Wc1a : World :=
  { env := fun n =>
      if n = "HUGGINGFACE_HUB_CACHE" then some "/p"
      else if n = "HF_DATASETS_CACHE" then some "/q"
      else if n = "HF_HOME" then some "/hf"
      else if n = "XDG_CACHE_HOME" then some "/x" else none,
    pathExists := fun _ => true,
    isDir := fun _ => true,
    readFile := fun _ => none,
    home := "/home/u" }

/-- World for the second half of the C1 witness: the primary variables
name the invalid path `/bad` while every other path (in particular the
`HF_HOME`-derived candidates and the fixed defaults) exists. -/
def Wc1b : World :=
  { env := fun n =>
      if n = "HUGGINGFACE_HUB_CACHE" then some "/bad"
      else if n = "HF_DATASETS_CACHE" then some "/bad"
      else if n = "HF_HOME" then some "/hf" else none,
    pathExists := fun p => !(p == "/bad"),
    isDir := fun p => !(p == "/bad"),
    readFile := fun _ => none,
    home := "/home/u" }

/-- Witness for C1: in `Wc1a` the valid primaries win although everything
exists; in `Wc1b` the `HF_HOME`-derived candidates win over the defaults,
which also exist. -/
theorem hub_datasets_priority_strict_witness :
    find_hf_hub_dir Wc1a = some "/p" ∧ find_hf_datasets_dir Wc1a = some "/q" ∧
    find_hf_hub_dir Wc1b = some (joinPath "/hf" "hub") ∧
    find_hf_datasets_dir Wc1b = some (joinPath "/hf" "datasets") := by
  obtain ⟨p1, _, p3, _⟩ := hub_datasets_priority_strict Wc1a
  obtain ⟨_, q2, _, q4⟩ := hub_datasets_priority_strict Wc1b
  exact ⟨p1 "/p" (by decide) (by decide), p3 "/q" (by decide) (by decide),
    q2 "/hf" (by decide) (by decide) (by decide),
    q4 "/hf" (by decide) (by decide) (by decide)⟩

/-- World refuting C3 as stated: the primary variables are unset, `HF_HOME`
is set to `/hf` which exists and is a directory, but neither `/hf/hub` nor
`/hf/datasets` (nor any default) exists. -/
def Wc3 : World :=
  { env := fun n => if n = "HF_HOME" then some "/hf" else none,
    pathExists := fun p => p == "/hf",
    isDir := fun p => p == "/hf",
    readFile := fun _ => none,
    home := "/home/u" }

/-- C3 counterexample: with the primary variables unset and `HF_HOME` a
valid existing directory, `find_hf_hub_dir` and `find_hf_datasets_dir` do
not return `HF_HOME` joined with `hub`/`datasets` — they return `none`,
because the code validates the joined path, which does not exist here. -/
theorem hub_home_join_counterexample :
    Wc3.env "HUGGINGFACE_HUB_CACHE" = none ∧ Wc3.env "HF_DATASETS_CACHE" = none ∧
    Wc3.env "HF_HOME" = some "/hf" ∧ existsAndIsDir Wc3 "/hf" = true ∧
    find_hf_hub_dir Wc3 = none ∧
    find_hf_hub_dir Wc3 ≠ some (joinPath "/hf" "hub") ∧
    find_hf_datasets_dir Wc3 = none ∧
    find_hf_datasets_dir Wc3 ≠ some (joinPath "/hf" "datasets") := by decide

/-- C3 amended: when the primary variable is unset or names an invalid
path and `HF_HOME` is set to a valid directory whose `hub` (resp.
`datasets`) join also exists and is a directory, the result is `HF_HOME`
joined with `hub` (resp. `datasets`).  The existence test is applied to
the joined path, not to `HF_HOME` itself. -/
theorem hub_home_join_amended (w : World) (hh : String) :
    ((w.env "HUGGINGFACE_HUB_CACHE").bind (checkDir w) = none →
      w.env "HF_HOME" = some hh → existsAndIsDir w hh = true →
      existsAndIsDir w (joinPath hh "hub") = true →
      find_hf_hub_dir w = some (joinPath hh "hub")) ∧
    ((w.env "HF_DATASETS_CACHE").bind (checkDir w) = none →
      w.env "HF_HOME" = some hh → existsAndIsDir w hh = true →
      existsAndIsDir w (joinPath hh "datasets") = true →
      find_hf_datasets_dir w = some (joinPath hh "datasets")) := by
  refine ⟨fun hp h1 _ h2 => ?_, fun hp h1 _ h2 => ?_⟩
  · unfold find_hf_hub_dir
    rw [hp]
    simp [h1, checkDir, h2]
  · unfold find_hf_datasets_dir
    rw [hp]
    simp [h1, checkDir, h2]

/-- World for the C3-amended witness: primaries unset, `HF_HOME = /hf`,
and `/hf`, `/hf/hub`, `/hf/datasets` all exist as directories. -/
def Wc3b : World :=
  { env := fun n => if n = "HF_HOME" then some "/hf" else none,
    pathExists := fun p => p == "/hf" || p == "/hf/hub" || p == "/hf/datasets",
    isDir := fun p => p == "/hf" || p == "/hf/hub" || p == "/hf/datasets",
    readFile := fun _ => none,
    home := "/home/u" }

/-- Witness for the amended C3 at the concrete world `Wc3b`. -/
theorem hub_home_join_amended_witness :
    find_hf_hub_dir Wc3b = some (joinPath "/hf" "hub") ∧
    find_hf_datasets_dir Wc3b = some (joinPath "/hf" "datasets") := by
  obtain ⟨p1, p2⟩ := hub_home_join_amended Wc3b "/hf"
  exact ⟨p1 (by decide) (by decide) (by decide) (by decide),
    p2 (by decide) (by decide) (by decide) (by decide)⟩

/-- C4: the snapshot resolvers resolve their base cache directory by the
hub (resp. datasets) resolver first, then `find_hf_home_dir` joined with
`hub` (resp. `datasets`), then `find_xdg_cache_home` joined with
`huggingface/hub` (resp. `huggingface/datasets`); when all three yield
nothing the operation returns the absence signal. -/
theorem base_dir_fallback_chain (w : World) (m : String) :
    (∀ b, find_hf_hub_dir w = some b → modelBaseDir w = some b) ∧
    (∀ hh, find_hf_hub_dir w = none → find_hf_home_dir w = some hh →
      modelBaseDir w = some (joinPath hh "hub")) ∧
    (∀ x, find_hf_hub_dir w = none → find_hf_home_dir w = none →
      find_xdg_cache_home w = some x →
      modelBaseDir w = some (joinPath (joinPath x "huggingface") "hub")) ∧
    (find_hf_hub_dir w = none → find_hf_home_dir w = none →
      find_xdg_cache_home w = none → find_model_dir w m = FindResult.absent) ∧
    (∀ b, find_hf_datasets_dir w = some b → datasetsBaseDir w = some b) ∧
    (∀ hh, find_hf_datasets_dir w = none → find_hf_home_dir w = some hh →
      datasetsBaseDir w = some (joinPath hh "datasets")) ∧
    (∀ x, find_hf_datasets_dir w = none → find_hf_home_dir w = none →
      find_xdg_cache_home w = some x →
      datasetsBaseDir w = some (joinPath (joinPath x "huggingface") "datasets")) ∧
    (find_hf_datasets_dir w = none → find_hf_home_dir w = none →
      find_xdg_cache_home w = none → find_datasets_dir w m = FindResult.absent) := by
  refine ⟨fun b h1 => ?_, fun hh h1 h2 => ?_, fun x h1 h2 h3 => ?_, fun h1 h2 h3 => ?_,
    fun b h1 => ?_, fun hh h1 h2 => ?_, fun x h1 h2 h3 => ?_, fun h1 h2 h3 => ?_⟩
  · simp [modelBaseDir, h1]
  · simp [modelBaseDir, h1, h2]
  · simp [modelBaseDir, h1, h2, h3]
  · simp [find_model_dir, modelBaseDir, h1, h2, h3]
  · simp [datasetsBaseDir, h1]
  · simp [datasetsBaseDir, h1, h2]
  · simp [datasetsBaseDir, h1, h2, h3]
  · simp [find_datasets_dir, datasetsBaseDir, h1, h2, h3]

/-- World for the C4 witness, stage 1: the hub and datasets primaries are
valid, so the first link of each chain fires. -/
def Wc4a : World :=
  { env := fun n =>
      if n = "HUGGINGFACE_HUB_CACHE" then some "/p"
      else if n = "HF_DATASETS_CACHE" then some "/q" else none,
    pathExists := fun p => p == "/p" || p == "/q",
    isDir := fun p => p == "/p" || p == "/q",
    readFile := fun _ => none,
    home := "/home/u" }

/-- World for the C4 witness, stage 2: the hub and datasets resolvers find
nothing but `find_hf_home_dir` returns `/hf` (only `/hf` exists). -/
def Wc4b : World :=
  { env := fun n => if n = "HF_HOME" then some "/hf" else none,
    pathExists := fun p => p == "/hf",
    isDir := fun p => p == "/hf",
    readFile := fun _ => none,
    home := "/home/u" }

/-- World for the C4 witness, stage 3: only `XDG_CACHE_HOME = /x` is set
and only `/x` exists, so the first two links of each chain fail. -/
def Wc4c : World :=
  { env := fun n => if n = "XDG_CACHE_HOME" then some "/x" else none,
    pathExists := fun p => p == "/x",
    isDir := fun p => p == "/x",
    readFile := fun _ => none,
    home := "/home/u" }

/-- World for the C4 witness, stage 4: no variable is set and nothing
exists, so every resolver fails. -/
def Wc4d : World :=
  { env := fun _ => none,
    pathExists := fun _ => false,
    isDir := fun _ => false,
    readFile := fun _ => none,
    home := "/home/u" }

/-- Witness for C4: each link of both fallback chains fires at the
corresponding concrete world, and total failure returns absence. -/
theorem base_dir_fallback_chain_witness :
    modelBaseDir Wc4a = some "/p" ∧ datasetsBaseDir Wc4a = some "/q" ∧
    modelBaseDir Wc4b = some (joinPath "/hf" "hub") ∧
    datasetsBaseDir Wc4b = some (joinPath "/hf" "datasets") ∧
    modelBaseDir Wc4c = some (joinPath (joinPath "/x" "huggingface") "hub") ∧
    datasetsBaseDir Wc4c = some (joinPath (joinPath "/x" "huggingface") "datasets") ∧
    find_model_dir Wc4d "org/name" = FindResult.absent ∧
    find_datasets_dir Wc4d "org/name" = FindResult.absent := by
  obtain ⟨a1, -, -, -, a5, -, -, -⟩ := base_dir_fallback_chain Wc4a "org/name"
  obtain ⟨-, b2, -, -, -, b6, -, -⟩ := base_dir_fallback_chain Wc4b "org/name"
  obtain ⟨-, -, c3, -, -, -, c7, -⟩ := base_dir_fallback_chain Wc4c "org/name"
  obtain ⟨-, -, -, d4, -, -, -, d8⟩ := base_dir_fallback_chain Wc4d "org/name"
  exact ⟨a1 "/p" (by decide), a5 "/q" (by decide),
    b2 "/hf" (by decide) (by decide), b6 "/hf" (by decide) (by decide),
    c3 "/x" (by decide) (by decide) (by decide),
    c7 "/x" (by decide) (by decide) (by decide),
    d4 (by decide) (by decide) (by decide), d8 (by decide) (by decide) (by decide)⟩

/-- Character-level replacement agrees with a `flatMap` that sends `c` to
`r` and keeps every other character. -/
theorem replaceCharList_eq_flatMap (c : Char) (r : List Char) :
    ∀ l : List Char, replaceCharList c r l =
      l.flatMap fun ch => if ch = c then r else [ch] := by
  intro l
  induction l with
  | nil => rfl
  | cons ch rest ih => simp [replaceCharList, ih]

/-- C5: for every identifier string the repository cache sub-directory
name is `models--` (resp. `datasets--`) prefixed to the identifier with
every `/` replaced by `--`; in particular `org/name` yields exactly
`models--org--name` and `datasets--org--name`. -/
theorem repo_subdir_name (m : String) :
    model_path m = "models--" ++
      String.mk (m.data.flatMap fun ch => if ch = '/' then ['-', '-'] else [ch]) ∧
    dataset_path m = "datasets--" ++
      String.mk (m.data.flatMap fun ch => if ch = '/' then ['-', '-'] else [ch]) ∧
    model_path "org/name" = "models--org--name" ∧
    dataset_path "org/name" = "datasets--org--name" := by
  have hd : ("--" : String).data = ['-', '-'] := rfl
  refine ⟨?_, ?_, by decide, by decide⟩ <;>
    simp [model_path, dataset_path, replaceChar, hd, replaceCharList_eq_flatMap]

/-- World refuting C6 as stated: the hub and datasets caches resolve to
`/hub`, both repositories for `org/name` exist, the pointer files contain
`"abc \n"` (a trailing space before the newline), and the snapshot
directories that exist are the ones named `abc ` — with the trailing space
kept — not the whitespace-trimmed `abc`. -/
def Wc6 : World :=
  { env := fun n =>
      if n = "HUGGINGFACE_HUB_CACHE" then some "/hub"
      else if n = "HF_DATASETS_CACHE" then some "/hub" else none,
    pathExists := fun p => p == "/hub" || p == "/hub/models--org--name" ||
      p == "/hub/models--org--name/snapshots/abc " ||
      p == "/hub/datasets--org--name" ||
      p == "/hub/datasets--org--name/snapshots/abc ",
    isDir := fun p => p == "/hub",
    readFile := fun p =>
      if p == "/hub/models--org--name/refs/main" then some "abc \n"
      else if p == "/hub/datasets--org--name/refs/main" then some "abc \n"
      else none,
    home := "/home/u" }

/-- C6 counterexample: the code removes only newline characters from the
pointer file, keeping other trailing whitespace, so with contents
`"abc \n"` the object identifier is `"abc "` and the returned snapshot
path ends in the trailing space — not the path formed from the
whitespace-trimmed identifier `"abc"`, as the claim would predict. -/
theorem pointer_trim_counterexample :
    Wc6.readFile "/hub/models--org--name/refs/main" = some "abc \n" ∧
    stripTrailingWs "abc \n" = "abc" ∧
    replaceChar "abc \n" '\n' "" = "abc " ∧
    find_model_dir Wc6 "org/name" =
      FindResult.found "/hub/models--org--name/snapshots/abc " ∧
    find_model_dir Wc6 "org/name" ≠
      FindResult.found "/hub/models--org--name/snapshots/abc" ∧
    find_datasets_dir Wc6 "org/name" =
      FindResult.found "/hub/datasets--org--name/snapshots/abc " ∧
    find_datasets_dir Wc6 "org/name" ≠
      FindResult.found "/hub/datasets--org--name/snapshots/abc" := by decide

/-- C6 amended: the object identifier is obtained from the pointer file by
removing every newline character from its contents (other whitespace,
including trailing spaces, is preserved, and interior newlines are removed
too); the snapshot path is formed from that identifier and returned when
it exists. -/
theorem pointer_newline_removal_amended (w : World) (m b contents : String) :
    (modelBaseDir w = some b →
      w.pathExists (joinPath b (model_path m)) = true →
      w.readFile (joinPath (joinPath (joinPath b (model_path m)) "refs") "main") =
        some contents →
      find_model_dir w m =
        (if w.pathExists (joinPath (joinPath (joinPath b (model_path m)) "snapshots")
            (replaceChar contents '\n' "")) = false then FindResult.absent
         else FindResult.found (joinPath (joinPath (joinPath b (model_path m)) "snapshots")
            (replaceChar contents '\n' "")))) ∧
    (datasetsBaseDir w = some b →
      w.pathExists (joinPath b (dataset_path m)) = true →
      w.readFile (joinPath (joinPath (joinPath b (dataset_path m)) "refs") "main") =
        some contents →
      find_datasets_dir w m =
        (if w.pathExists (joinPath (joinPath (joinPath b (dataset_path m)) "snapshots")
            (replaceChar contents '\n' "")) = false then FindResult.absent
         else FindResult.found (joinPath (joinPath (joinPath b (dataset_path m)) "snapshots")
            (replaceChar contents '\n' "")))) := by
  refine ⟨fun hb h1 h2 => ?_, fun hb h1 h2 => ?_⟩
  · simp [find_model_dir, hb, h1, h2]
  · simp [find_datasets_dir, hb, h1, h2]

/-- Witness for the amended C6 at the concrete world `Wc6`: the pointer
contents `"abc \n"` lose only the newline, and the snapshot path keeps the
trailing space. -/
theorem pointer_newline_removal_amended_witness :
    find_model_dir Wc6 "org/name" =
      FindResult.found "/hub/models--org--name/snapshots/abc " ∧
    find_datasets_dir Wc6 "org/name" =
      FindResult.found "/hub/datasets--org--name/snapshots/abc " := by
  obtain ⟨p1, p2⟩ := pointer_newline_removal_amended Wc6 "org/name" "/hub" "abc \n"
  constructor
  · rw [p1 (by decide) (by decide) (by decide)]; decide
  · rw [p2 (by decide) (by decide) (by decide)]; decide

/-- C7: when the base directory resolves but the repository cache
directory does not exist, the snapshot resolvers return the absence
signal; in particular the same holds in the world where every file read
would fail, so no pointer-file read is involved in this outcome. -/
theorem repo_dir_missing_absent (w : World) (m b : String) :
    (modelBaseDir w = some b →
      w.pathExists (joinPath b (model_path m)) = false →
      find_model_dir w m = FindResult.absent ∧
      find_model_dir { w with readFile := fun _ => none } m = FindResult.absent) ∧
    (datasetsBaseDir w = some b →
      w.pathExists (joinPath b (dataset_path m)) = false →
      find_datasets_dir w m = FindResult.absent ∧
      find_datasets_dir { w with readFile := fun _ => none } m = FindResult.absent) := by
  refine ⟨fun hb h1 => ⟨?_, ?_⟩, fun hb h1 => ⟨?_, ?_⟩⟩
  · simp [find_model_dir, hb, h1]
  · rw [find_model_dir, modelBaseDir_set_readFile, hb]
    simp [h1]
  · simp [find_datasets_dir, hb, h1]
  · rw [find_datasets_dir, datasetsBaseDir_set_readFile, hb]
    simp [h1]

/-- World for the C7 witness: the hub and datasets caches resolve to
`/hub`, the repository directories do not exist, and every file read would
fail. -/
def Wc7 : World :=
  { env := fun n =>
      if n = "HUGGINGFACE_HUB_CACHE" then some "/hub"
      else if n = "HF_DATASETS_CACHE" then some "/hub" else none,
    pathExists := fun p => p == "/hub",
    isDir := fun p => p == "/hub",
    readFile := fun _ => none,
    home := "/home/u" }

/-- Witness for C7 at the concrete world `Wc7`. -/
theorem repo_dir_missing_absent_witness :
    find_model_dir Wc7 "org/name" = FindResult.absent ∧
    find_datasets_dir Wc7 "org/name" = FindResult.absent := by
  obtain ⟨p1, p2⟩ := repo_dir_missing_absent Wc7 "org/name" "/hub"
  exact ⟨(p1 (by decide) (by decide)).1, (p2 (by decide) (by decide)).1⟩

/-- C8: when the repository directory exists and the pointer file is
readable but the snapshot directory named by the (newline-stripped)
contents does not exist, the snapshot resolvers return the absence signal,
not the raised-failure outcome. -/
theorem snapshot_missing_absent (w : World) (m b contents : String) :
    (modelBaseDir w = some b →
      w.pathExists (joinPath b (model_path m)) = true →
      w.readFile (joinPath (joinPath (joinPath b (model_path m)) "refs") "main") =
        some contents →
      w.pathExists (joinPath (joinPath (joinPath b (model_path m)) "snapshots")
        (replaceChar contents '\n' "")) = false →
      find_model_dir w m = FindResult.absent ∧
      find_model_dir w m ≠ FindResult.raised) ∧
    (datasetsBaseDir w = some b →
      w.pathExists (joinPath b (dataset_path m)) = true →
      w.readFile (joinPath (joinPath (joinPath b (dataset_path m)) "refs") "main") =
        some contents →
      w.pathExists (joinPath (joinPath (joinPath b (dataset_path m)) "snapshots")
        (replaceChar contents '\n' "")) = false →
      find_datasets_dir w m = FindResult.absent ∧
      find_datasets_dir w m ≠ FindResult.raised) := by
  refine ⟨fun hb h1 h2 h3 => ?_, fun hb h1 h2 h3 => ?_⟩
  · have : find_model_dir w m = FindResult.absent := by
      simp [find_model_dir, hb, h1, h2, h3]
    exact ⟨this, by simp [this]⟩
  · have : find_datasets_dir w m = FindResult.absent := by
      simp [find_datasets_dir, hb, h1, h2, h3]
    exact ⟨this, by simp [this]⟩

/-- World for the C8 witness: well-formed repositories whose pointer files
name the snapshot `abc123`, but no snapshot directory exists. -/
def Wc8 : World :=
  { env := fun n =>
      if n = "HUGGINGFACE_HUB_CACHE" then some "/hub"
      else if n = "HF_DATASETS_CACHE" then some "/hub" else none,
    pathExists := fun p => p == "/hub" || p == "/hub/models--org--name" ||
      p == "/hub/datasets--org--name",
    isDir := fun p => p == "/hub",
    readFile := fun p =>
      if p == "/hub/models--org--name/refs/main" then some "abc123\n"
      else if p == "/hub/datasets--org--name/refs/main" then some "abc123\n"
      else none,
    home := "/home/u" }

/-- Witness for C8 at the concrete world `Wc8`. -/
theorem snapshot_missing_absent_witness :
    find_model_dir Wc8 "org/name" = FindResult.absent ∧
    find_datasets_dir Wc8 "org/name" = FindResult.absent := by
  obtain ⟨p1, p2⟩ := snapshot_missing_absent Wc8 "org/name" "/hub" "abc123\n"
  exact ⟨(p1 (by decide) (by decide) (by decide) (by decide)).1,
    (p2 (by decide) (by decide) (by decide) (by decide)).1⟩

/-- C9: when the repository directory exists but the pointer-file read
fails, the snapshot resolvers propagate the failure (the raised outcome),
not the absence signal. -/
theorem pointer_read_failure_raises (w : World) (m b : String) :
    (modelBaseDir w = some b →
      w.pathExists (joinPath b (model_path m)) = true →
      w.readFile (joinPath (joinPath (joinPath b (model_path m)) "refs") "main") = none →
      find_model_dir w m = FindResult.raised ∧
      find_model_dir w m ≠ FindResult.absent) ∧
    (datasetsBaseDir w = some b →
      w.pathExists (joinPath b (dataset_path m)) = true →
      w.readFile (joinPath (joinPath (joinPath b (dataset_path m)) "refs") "main") = none →
      find_datasets_dir w m = FindResult.raised ∧
      find_datasets_dir w m ≠ FindResult.absent) := by
  refine ⟨fun hb h1 h2 => ?_, fun hb h1 h2 => ?_⟩
  · have : find_model_dir w m = FindResult.raised := by
      simp [find_model_dir, hb, h1, h2]
    exact ⟨this, by simp [this]⟩
  · have : find_datasets_dir w m = FindResult.raised := by
      simp [find_datasets_dir, hb, h1, h2]
    exact ⟨this, by simp [this]⟩

/-- World for the C9 witness: the repository directories exist but every
file read fails (the pointer files are missing or unreadable). -/
def Wc9 : World :=
  { env := fun n =>
      if n = "HUGGINGFACE_HUB_CACHE" then some "/hub"
      else if n = "HF_DATASETS_CACHE" then some "/hub" else none,
    pathExists := fun p => p == "/hub" || p == "/hub/models--org--name" ||
      p == "/hub/datasets--org--name",
    isDir := fun p => p == "/hub",
    readFile := fun _ => none,
    home := "/home/u" }

/-- Witness for C9 at the concrete world `Wc9`. -/
theorem pointer_read_failure_raises_witness :
    find_model_dir Wc9 "org/name" = FindResult.raised ∧
    find_datasets_dir Wc9 "org/name" = FindResult.raised := by
  obtain ⟨p1, p2⟩ := pointer_read_failure_raises Wc9 "org/name" "/hub"
  exact ⟨(p1 (by decide) (by decide) (by decide)).1,
    (p2 (by decide) (by decide) (by decide)).1⟩

/-- World for C10: the caches resolve to the directory `/hub`, the
repository directories for `org/name` exist, the pointer files name the
snapshot `abc123`, and the paths `snapshots/abc123` exist but are not
directories (regular files). -/
def Wc10 : World :=
  { env := fun n =>
      if n = "HUGGINGFACE_HUB_CACHE" then some "/hub"
      else if n = "HF_DATASETS_CACHE" then some "/hub" else none,
    pathExists := fun p => p == "/hub" || p == "/hub/models--org--name" ||
      p == "/hub/models--org--name/snapshots/abc123" ||
      p == "/hub/datasets--org--name" ||
      p == "/hub/datasets--org--name/snapshots/abc123",
    isDir := fun p => p == "/hub",
    readFile := fun p =>
      if p == "/hub/models--org--name/refs/main" then some "abc123\n"
      else if p == "/hub/datasets--org--name/refs/main" then some "abc123\n"
      else none,
    home := "/home/u" }

/-- World for the second half of C10: all four primary variables name the
path `/f`, which exists but is not a directory, and nothing else exists,
so every base resolver rejects it. -/
def Wc10b : World :=
  { env := fun n =>
      if n = "HF_HOME" then some "/f"
      else if n = "HUGGINGFACE_HUB_CACHE" then some "/f"
      else if n = "HF_DATASETS_CACHE" then some "/f"
      else if n = "XDG_CACHE_HOME" then some "/f" else none,
    pathExists := fun p => p == "/f",
    isDir := fun _ => false,
    readFile := fun _ => none,
    home := "/home/u" }

/-- C10: the final snapshot path is checked only for existence, not for
being a directory — in `Wc10` the snapshot paths exist as non-directories
and are returned — whereas the four base resolvers require
exists-and-is-directory, as `Wc10b` shows: a path that exists but is not a
directory is rejected by all of them. -/
theorem snapshot_exists_only_check :
    Wc10.pathExists "/hub/models--org--name/snapshots/abc123" = true ∧
    Wc10.isDir "/hub/models--org--name/snapshots/abc123" = false ∧
    find_model_dir Wc10 "org/name" =
      FindResult.found "/hub/models--org--name/snapshots/abc123" ∧
    Wc10.isDir "/hub/datasets--org--name/snapshots/abc123" = false ∧
    find_datasets_dir Wc10 "org/name" =
      FindResult.found "/hub/datasets--org--name/snapshots/abc123" ∧
    Wc10b.pathExists "/f" = true ∧ Wc10b.isDir "/f" = false ∧
    find_hf_home_dir Wc10b = none ∧ find_hf_hub_dir Wc10b = none ∧
    find_hf_datasets_dir Wc10b = none ∧ find_xdg_cache_home Wc10b = none := by decide
